import Mathlib

/-!
# pmacct `redis_common.c`: the Redis heartbeat publisher

A shallow embedding of `src/redis_common.c` and the properties of its
connection handling, reply processing, bootstrap and periodic publish loop.

Conventions of the embedding

* C strings are `String`; a `char *` that the code tests against `NULL`
  (`config.redis_host`, `config.cluster_name`, the arguments of `p_redis_init`)
  is an `Option`.
* `int`, `long` and `time_t` values are `Int`; `unsigned int` values are `Nat`
  (a constant assigned to an `unsigned int` is reduced modulo `2^32`, and a
  product of two `int`s is reduced to the range of `int`, see `int_mul`).
* The macros, the struct layout and the helper functions come from headers
  that are not part of the translated file; the macros and helpers are the
  fields of `Defs`, so every statement holds for each value they can have.
* Everything the code does to the outside (hiredis, the logger, the thread
  pool, `sleep`) is appended to `World.trace`; what the outside answers
  (`time`, `redisConnect`, `gettimeofday`, `redisCommand`, `sleep`) is an
  explicit argument, so the statements quantify over every answer.
* A call either returns, or ends the process through `exit_gracefully`, or
  leaves defined behaviour (`Outcome.fault`): a `NULL` string handed to a
  `%s` conversion, a `NULL` callback called, a write past the end of an array.
* String lengths are counted in bytes (`String.utf8ByteSize`) where the code
  compares them with the size of a buffer.
-/

set_option maxRecDepth 10000

namespace RedisCommon

/-! ## Data model -/

/-- The two fields of hiredis' `redisContext` that the code reads. -/
structure redisContext where
  err : Int
  errstr : String
deriving DecidableEq, Repr

/-- The two fields of hiredis' `redisReply` that the code reads. -/
structure redisReply where
  type : Int
  str : String
deriving DecidableEq, Repr

/-- The connection state `struct p_redis_host`. `ctx` and `reply` are
pointers (`none` is `NULL`); `th_hdlr` is a function pointer, represented by
the index of the callback it points to. -/
structure p_redis_host where
  log_id : String
  db : Int
  exp_time : Int
  last_conn : Int
  ctx : Option redisContext
  reply : Option redisReply
  th_hdlr : Option Nat
deriving DecidableEq, Repr

/-- The state after `memset(redis_host, 0, sizeof(struct p_redis_host))`. -/
def p_redis_host.zero : p_redis_host :=
  { log_id := "", db := 0, exp_time := 0, last_conn := 0, ctx := none, reply := none,
    th_hdlr := none }

/-- Severity passed to `Log`. -/
inductive LogLevel where
  | LOG_DEBUG
  | LOG_INFO
  | LOG_WARNING
  | LOG_ERR
deriving DecidableEq, Repr

/-- What the code does to its environment, in program order. -/
inductive Event where
  /-- Call `Log(level, ...)`, with the formatted message. -/
  | Log (level : LogLevel) (msg : String)
  /-- Call `redisConnect(dest_str, dest_port)`: one connection attempt. -/
  | redisConnect (dest_str : String) (dest_port : Int)
  /-- Call `redisCommand(ctx, ...)`, with the arguments of the formatted command. -/
  | redisCommand (argv : List String)
  /-- Call `freeReplyObject(reply)`. -/
  | freeReplyObject (reply : redisReply)
  /-- Call `allocate_thread_pool(n)`. -/
  | allocate_thread_pool (n : Int)
  /-- Call `send_to_pool(redis_pool, p_redis_master_produce_thread, redis_host)`,
  with the connection state at that moment. -/
  | send_to_pool (redis_host : p_redis_host)
  /-- Call `(*redis_host->th_hdlr)(redis_host)`: the callback is entered. -/
  | th_hdlr (h : Nat)
  /-- Call `sleep(period)`. -/
  | sleep (period : Nat)
deriving DecidableEq, Repr

/-- The connection state, the two globals of the file and the trace. -/
structure World where
  redis_host : p_redis_host
  /-- Global `redis_pool`: the size of the allocated pool, `none` before. -/
  redis_pool : Option Int
  /-- Global `timestamp`. -/
  timestamp : String
  trace : List Event
deriving DecidableEq, Repr

/-- How a call ends. -/
inductive Outcome (α : Type) where
  /-- The function returned `v`. -/
  | ret (v : α) (w : World)
  /-- The call reached `exit_gracefully(status)`: the process is over. -/
  | exit_gracefully (status : Int) (w : World)
  /-- A `NULL` string reached a `%s` conversion, a `NULL` callback was
  called, or a byte was written past the end of an array. -/
  | fault (w : World)
deriving DecidableEq, Repr

/-- The world in which a call ended. -/
def Outcome.world {α : Type} : Outcome α → World
  | .ret _ w => w
  | .exit_gracefully _ w => w
  | .fault w => w

/-- Sequencing: the rest of the code runs only if the call returned. -/
def Outcome.bind {α β : Type} (o : Outcome α) (f : α → World → Outcome β) : Outcome β :=
  match o with
  | .ret v w => f v w
  | .exit_gracefully s w => .exit_gracefully s w
  | .fault w => .fault w

/-- The part of the global `config` that the file reads. -/
structure Config where
  redis_host : Option String
  redis_db : Int
  cluster_name : Option String
  cluster_id : Int
  name : String
  type : String
  acct_type : Int
  uacctd_group : Int
  nfacctd_isis : Int
  bgp_daemon : Int
  bmp_daemon : Int
  telemetry_daemon : Int

/-- The macros and helpers that `pmacct.h`, `redis_common.h` and hiredis
provide. `parse_hostport` stands for the chain `parse_hostport`, `sa_to_str`,
`sa_to_port`: the address string and the port of a configured host. -/
structure Defs where
  PM_REDIS_DEFAULT_PORT : Int
  PM_REDIS_DEFAULT_EXP_TIME : Int
  PM_REDIS_DEFAULT_REFRESH_TIME : Nat
  PM_REDIS_DEFAULT_CONN_RETRY : Int
  PM_REDIS_DEFAULT_SEP : String
  SUCCESS : Int
  ERR : Int
  VERYSHORTBUFLEN : Nat
  SHORTBUFLEN : Nat
  SRVBUFLEN : Nat
  /-- Size of the array `log_id` of `struct p_redis_host`. -/
  sizeof_log_id : Nat
  REDIS_REPLY_ERROR : Int
  ACCT_PM : Int
  ACCT_NF : Int
  ACCT_SF : Int
  ACCT_PMBGP : Int
  ACCT_PMBMP : Int
  ACCT_PMTELE : Int
  ACCT_FWPLANE_MAX : Int
  parse_hostport : String → String × Int

/-- What the environment answers during one call of a primitive:
`time(NULL)`, the result of `redisConnect`, `gettimeofday` (with
`0 ≤ tv_usec`), and the result of `redisCommand` (`none` is `NULL`). -/
structure Oracle where
  time : Int
  redisConnect : Option redisContext
  tv_sec : Int
  tv_usec : Nat
  redisCommand : Option redisReply
deriving DecidableEq, Repr

/-- The `NULL`-ness of the pointer to the connection state of the world. -/
abbrev HostPtr := Option Unit

/-! ## Helpers of the C library -/

/-- The string `snprintf(buf, n, ...)` leaves in `buf` when the formatted
text is `s`: at most `n - 1` characters. -/
def snprintf (n : Nat) (s : String) : String := s.take (n - 1)

/-- The product `a * b` of two `int`s as a 32-bit `int` holds it: the
mathematical product when it lies in `[-2^31, 2^31)`, and its residue in that
range otherwise. -/
def int_mul (a b : Int) : Int := (a * b + 2 ^ 31) % 2 ^ 32 - 2 ^ 31

/-- Appends `Log(level, msg)` to the trace. -/
def Log (w : World) (level : LogLevel) (msg : String) : World :=
  { w with trace := w.trace ++ [Event.Log level msg] }

/-! ## Setters -/

/-- Function `p_redis_set_log_id` (lines 236-237).
`strlcpy(log_id, label, size)` stores `min(strlen(label), size - 1)` bytes
and a terminator. `strncat(log_id, "/redis", size - strlen(log_id))` then
stores up to `size - strlen(log_id)` bytes of `"/redis"` and, after them, a
terminator. When the bytes stored by both and that terminator do not fit in
the `size` bytes of the array, the terminator lands past its end: a fault.
Otherwise neither call has cut anything and the array holds
`label ++ "/redis"`. -/
def p_redis_set_log_id (K : Defs) (w : World) (log_id : String) : Outcome Unit :=
  let copied := min log_id.utf8ByteSize (K.sizeof_log_id - 1)
  let appended := min "/redis".utf8ByteSize (K.sizeof_log_id - copied)
  if copied + appended + 1 ≤ K.sizeof_log_id then
    .ret () { w with redis_host := { w.redis_host with log_id := log_id ++ "/redis" } }
  else
    .fault w

/-- Function `p_redis_set_db`. -/
def p_redis_set_db (w : World) (db : Int) : World :=
  { w with redis_host := { w.redis_host with db := db } }

/-- Function `p_redis_set_exp_time`. -/
def p_redis_set_exp_time (w : World) (exp_time : Int) : World :=
  { w with redis_host := { w.redis_host with exp_time := exp_time } }

/-- Function `p_redis_set_thread_handler`. -/
def p_redis_set_thread_handler (w : World) (th_hdlr : Option Nat) : World :=
  { w with redis_host := { w.redis_host with th_hdlr := th_hdlr } }

/-! ## Connection -/

/-- The text that the `snprintf` at the end of `p_redis_connect` formats:
`"%ld%s%ld"` applied to `tv_sec`, the separator and `tv_usec*10^3`. In C `^`
is exclusive or and binds weaker than `*`, so the last argument is
`(tv_usec * 10) xor 3`. -/
def session_timestamp (K : Defs) (o : Oracle) : String :=
  snprintf K.SHORTBUFLEN
    (toString o.tv_sec ++ K.PM_REDIS_DEFAULT_SEP ++ toString ((o.tv_usec * 10) ^^^ 3))

/-- The tail of `p_redis_connect` (lines 137-142): store the session
timestamp in the global and return `SUCCESS`. -/
def p_redis_connect_stamp (K : Defs) (o : Oracle) (w : World) : Outcome Int :=
  .ret K.SUCCESS { w with timestamp := session_timestamp K o }

/-- Function `p_redis_connect(redis_host, fatal)`. -/
def p_redis_connect (K : Defs) (cfg : Config) (o : Oracle) (fatal : Bool) (w : World) :
    Outcome Int :=
  let now := o.time
  match cfg.redis_host with
  | none => p_redis_connect_stamp K o w
  | some hostport =>
    if now ≥ w.redis_host.last_conn + K.PM_REDIS_DEFAULT_CONN_RETRY then
      let dest := K.parse_hostport hostport
      let dest_port := if dest.2 = 0 then K.PM_REDIS_DEFAULT_PORT else dest.2
      let w1 : World :=
        { w with
          redis_host := { w.redis_host with last_conn := now, ctx := o.redisConnect }
          trace := w.trace ++ [Event.redisConnect dest.1 dest_port] }
      match o.redisConnect with
      | none =>
        .exit_gracefully 1
          (Log w1 .LOG_ERR
            ("ERROR ( " ++ w1.redis_host.log_id ++
              " ): Connection error: can't allocate redis context\n"))
      | some c =>
        if c.err ≠ 0 then
          if fatal then
            .exit_gracefully 1
              (Log w1 .LOG_ERR
                ("ERROR ( " ++ w1.redis_host.log_id ++ " ): Connection error: " ++
                  c.errstr ++ "\n"))
          else
            .ret K.ERR w1
        else
          p_redis_connect_stamp K o
            (Log w1 .LOG_DEBUG
              ("DEBUG ( " ++ w1.redis_host.log_id ++ " ): Connection successful\n"))
    else
      p_redis_connect_stamp K o w

/-- Number of `redisConnect` calls in a trace. -/
def connect_count : List Event → Nat
  | [] => 0
  | Event.redisConnect _ _ :: t => connect_count t + 1
  | _ :: t => connect_count t

/-- The clock values of those calls, in a sequence of
`p_redis_connect(redis_host, FALSE)` calls, during which `redisConnect` was
called. The sequence ends when a call ends the process. -/
def attempt_times (K : Defs) (cfg : Config) : List Oracle → World → List Int
  | [], _ => []
  | o :: os, w =>
    let r := p_redis_connect K cfg o false w
    let rest :=
      match r with
      | .ret _ w1 => attempt_times K cfg os w1
      | _ => []
    if connect_count w.trace < connect_count r.world.trace then o.time :: rest else rest

/-! ## Reply processing -/

/-- Function `p_redis_process_reply(redis_host)`. The function has no assignment to
`redis_host->reply`. -/
def p_redis_process_reply (K : Defs) (cfg : Config) (o : Oracle) (w : World) : Outcome Unit :=
  match w.redis_host.reply with
  | some reply =>
    let w1 :=
      if reply.type = K.REDIS_REPLY_ERROR then
        Log w .LOG_WARNING
          ("WARN ( " ++ w.redis_host.log_id ++ " ): reply='" ++ reply.str ++ "'\n")
      else w
    .ret () { w1 with trace := w1.trace ++ [Event.freeReplyObject reply] }
  | none =>
    (p_redis_connect K cfg o false w).bind (fun _ w1 => .ret () w1)

/-! ## Publish primitives -/

/-- The key `"%s%s%d%s%s"` of `cluster_name`, the separator, `cluster_id`,
the separator and the resource. -/
def redis_key (K : Defs) (cluster_name : String) (cluster_id : Int) (resource : String) :
    String :=
  cluster_name ++ K.PM_REDIS_DEFAULT_SEP ++ toString cluster_id ++ K.PM_REDIS_DEFAULT_SEP ++
    resource

/-- Statement `redis_host->reply = redisCommand(redis_host->ctx, ...)`. -/
def redisCommand (o : Oracle) (argv : List String) (w : World) : World :=
  { w with
    redis_host := { w.redis_host with reply := o.redisCommand }
    trace := w.trace ++ [Event.redisCommand argv] }

/-- Function `p_redis_set_string(redis_host, resource, value, expire)`. -/
def p_redis_set_string (K : Defs) (cfg : Config) (o : Oracle) (resource value : String)
    (expire : Int) (w : World) : Outcome Unit :=
  match cfg.cluster_name with
  | none => .fault w
  | some cluster_name =>
    let key := redis_key K cluster_name cfg.cluster_id resource
    let w1 :=
      if expire > 0 then
        redisCommand o ["SETEX", key, toString w.redis_host.exp_time, value] w
      else
        redisCommand o ["SET", key, value] w
    p_redis_process_reply K cfg o w1

/-- Function `p_redis_set_int(redis_host, resource, value, expire)`. -/
def p_redis_set_int (K : Defs) (cfg : Config) (o : Oracle) (resource : String) (value : Int)
    (expire : Int) (w : World) : Outcome Unit :=
  match cfg.cluster_name with
  | none => .fault w
  | some cluster_name =>
    let key := redis_key K cluster_name cfg.cluster_id resource
    let w1 :=
      if expire > 0 then
        redisCommand o ["SETEX", key, toString w.redis_host.exp_time, toString value] w
      else
        redisCommand o ["SET", key, toString value] w
    p_redis_process_reply K cfg o w1

/-- Number of `redisCommand` calls in a trace. -/
def command_count : List Event → Nat
  | [] => 0
  | Event.redisCommand _ :: t => command_count t + 1
  | _ :: t => command_count t

/-- Number of `freeReplyObject` calls in a trace. -/
def free_count : List Event → Nat
  | [] => 0
  | Event.freeReplyObject _ :: t => free_count t + 1
  | _ :: t => free_count t

/-- Number of `send_to_pool` calls in a trace. -/
def spawn_count : List Event → Nat
  | [] => 0
  | Event.send_to_pool _ :: t => spawn_count t + 1
  | _ :: t => spawn_count t

/-! ## Bootstrap -/

/-- Function `p_redis_thread_wrapper(redis_host)`: allocate the pool of two
slots and hand `p_redis_master_produce_thread` to it. Both `assert`s hold:
the pool was just allocated and the state is the one of the world. -/
def p_redis_thread_wrapper (w : World) : Outcome Unit :=
  let w1 : World :=
    { w with redis_pool := some 2, trace := w.trace ++ [Event.allocate_thread_pool 2] }
  let w2 :=
    Log w1 .LOG_DEBUG
      ("DEBUG ( " ++ w1.redis_host.log_id ++ " ): " ++ toString (1 : Int) ++
        " thread(s) initialized\n")
  .ret () { w2 with trace := w2.trace ++ [Event.send_to_pool w2.redis_host] }

/-- Function `p_redis_init(redis_host, log_id, th_hdlr)`. -/
def p_redis_init (K : Defs) (cfg : Config) (redis_host : HostPtr) (log_id : Option String)
    (th_hdlr : Option Nat) (w : World) : Outcome Unit :=
  match redis_host, log_id, th_hdlr with
  | some _, some log_id, some h =>
    let w0 : World := { w with redis_host := p_redis_host.zero }
    match cfg.redis_host with
    | none => .ret () w0
    | some _ =>
      (p_redis_set_log_id K w0 log_id).bind fun _ w1 =>
        let w2 := p_redis_set_db w1 cfg.redis_db
        let w3 := p_redis_set_exp_time w2 (int_mul K.PM_REDIS_DEFAULT_EXP_TIME 60)
        let w4 := p_redis_set_thread_handler w3 (some h)
        match cfg.cluster_name with
        | none =>
          .exit_gracefully 1
            (Log w4 .LOG_ERR
              ("ERROR ( " ++ w4.redis_host.log_id ++
                " ): redis_host requires cluster_name to be specified. Exiting...\n\n"))
        | some _ => p_redis_thread_wrapper w4
  | _, _, _ => .ret () w

/-! ## Periodic publish loop -/

/-- How one run of a callback ends. The type `redis_thread_handler` is
declared in a header outside the translated file; a callback may hand back a
value `N`, so that statements about such a value can be made. -/
inductive HandlerEnd where
  | returned (N : Nat)
  | exit_gracefully (status : Int)
  | fault
deriving DecidableEq, Repr

/-- What one run of a callback does: the connection state and the global
`timestamp` it leaves, the events it adds to the trace, and how it ends. -/
structure HandlerRun where
  redis_host : p_redis_host
  timestamp : String
  events : List Event
  result : HandlerEnd

/-- The statement `(*redis_host->th_hdlr)(redis_host);` of line 56: the
callback stored in the state runs; the value of the call expression is not
used. `H` gives the behaviour of each callback. -/
def call_th_hdlr (H : Nat → World → HandlerRun) (w : World) : Outcome Unit :=
  match w.redis_host.th_hdlr with
  | none => .fault w
  | some h =>
    let r := H h w
    let w1 : World :=
      { w with
        redis_host := r.redis_host
        timestamp := r.timestamp
        trace := w.trace ++ [Event.th_hdlr h] ++ r.events }
    match r.result with
    | .returned _ => .ret () w1
    | .exit_gracefully s => .exit_gracefully s w1
    | .fault => .fault w1

/-- One pass through the body of `for (;;)` (lines 55-63), started with the
values `ret` and `period` of the two locals. `slept` is what `sleep`
returns. The result is the new pair `(ret, period)`. -/
def produce_iteration (K : Defs) (H : Nat → World → HandlerRun) (slept : Nat)
    (ret _period : Nat) (w : World) : Outcome (Nat × Nat) :=
  if ret = 0 then
    (call_th_hdlr H w).bind fun _ w1 =>
      let period := K.PM_REDIS_DEFAULT_REFRESH_TIME % 2 ^ 32
      .ret (slept, period) { w1 with trace := w1.trace ++ [Event.sleep period] }
  else
    let period := ret
    .ret (slept, period) { w with trace := w.trace ++ [Event.sleep period] }

/-- The first `n` passes of the loop; `sleeps k` is what the `sleep` of pass
`k` returns. -/
def produce_loop (K : Defs) (H : Nat → World → HandlerRun) (sleeps : Nat → Nat) :
    Nat → Nat × Nat → World → Outcome (Nat × Nat)
  | 0, locals, w => .ret locals w
  | n + 1, locals, w =>
    (produce_loop K H sleeps n locals w).bind fun l w1 =>
      produce_iteration K H (sleeps n) l.1 l.2 w1

/-- Function `p_redis_master_produce_thread(rh)`, up to the end of pass `n`
of its endless loop: the locals `(ret, period)` and the world at that
point. -/
def p_redis_master_produce_thread (K : Defs) (cfg : Config) (H : Nat → World → HandlerRun)
    (o : Oracle) (sleeps : Nat → Nat) (n : Nat) (w : World) : Outcome (Nat × Nat) :=
  (p_redis_connect K cfg o true w).bind fun _ w1 => produce_loop K H sleeps n (0, 0) w1

/-! ## The common handler of the core process -/

/-- The `switch (config.acct_type)` of the handler: the content of the local
buffer `daemon_type` after it. `garbage` is what the buffer, which has no
initialiser, holds on entry. -/
def core_handler_daemon_type (K : Defs) (cfg : Config) (garbage : String) : String :=
  if cfg.acct_type = K.ACCT_NF then snprintf K.VERYSHORTBUFLEN "nfacctd"
  else if cfg.acct_type = K.ACCT_SF then snprintf K.VERYSHORTBUFLEN "sfacctd"
  else if cfg.acct_type = K.ACCT_PM then
    if cfg.uacctd_group ≠ 0 then snprintf K.VERYSHORTBUFLEN "uacctd"
    else snprintf K.VERYSHORTBUFLEN "pmacctd"
  else if cfg.acct_type = K.ACCT_PMBGP then snprintf K.VERYSHORTBUFLEN "pmbgpd"
  else if cfg.acct_type = K.ACCT_PMBMP then snprintf K.VERYSHORTBUFLEN "pmbmpd"
  else if cfg.acct_type = K.ACCT_PMTELE then snprintf K.VERYSHORTBUFLEN "pmtelemetryd"
  else garbage

/-- The locals of the handler that the `while` loop reads and writes, with
three counters that observe the run: how many publish primitives have been
called (the index of the next `Oracle`), how often the guard has been
evaluated and how often the body has been entered. -/
structure CoreLocals where
  count : Int
  name_and_type : String
  calls : Nat
  guards : Nat
  bodies : Nat
deriving DecidableEq, Repr

/-- The resource `"process%s%s%s%s"` that the body of the loop formats into
`name_and_type`. -/
def presence_resource (K : Defs) (cfg : Config) : String :=
  snprintf K.SHORTBUFLEN
    ("process" ++ K.PM_REDIS_DEFAULT_SEP ++ cfg.name ++ K.PM_REDIS_DEFAULT_SEP ++ cfg.type)

/-- The loop `while(++count >= 20) { ...; count = 0; }` of lines 289-296.
The first argument bounds the number of guard evaluations; `none` means the
bound was reached. `os i` answers the `i`-th publish primitive. -/
def core_handler_while (K : Defs) (cfg : Config) (os : Nat → Oracle) (daemon_type : String) :
    Nat → CoreLocals → World → Option (Outcome CoreLocals)
  | 0, _, _ => none
  | fuel + 1, l, w =>
    let count := l.count + 1
    if count ≥ 20 then
      match p_redis_set_string K cfg (os l.calls) "daemon_type" daemon_type
          (int_mul K.PM_REDIS_DEFAULT_EXP_TIME 60) w with
      | .ret _ w1 =>
        let name_and_type := presence_resource K cfg
        match p_redis_set_int K cfg (os (l.calls + 1)) name_and_type 1
            (int_mul K.PM_REDIS_DEFAULT_EXP_TIME 60) w1 with
        | .ret _ w2 =>
          core_handler_while K cfg os daemon_type fuel
            { count := 0, name_and_type := name_and_type, calls := l.calls + 2,
              guards := l.guards + 1, bodies := l.bodies + 1 } w2
        | .exit_gracefully s w2 => some (.exit_gracefully s w2)
        | .fault w2 => some (.fault w2)
      | .exit_gracefully s w1 => some (.exit_gracefully s w1)
      | .fault w1 => some (.fault w1)
    else
      some (.ret { l with count := count, guards := l.guards + 1 } w)

/-- One of the four blocks `if (config.<flag>) { snprintf(buf, ...);
p_redis_set_int(redis_host, buf, TRUE, ...); }`; the value is the number of
publish primitives called so far. -/
def core_handler_flag (K : Defs) (cfg : Config) (os : Nat → Oracle) (flag : Int)
    (suffix name_and_type : String) (calls : Nat) (w : World) : Outcome Nat :=
  if flag ≠ 0 then
    let buf := snprintf K.SRVBUFLEN (name_and_type ++ K.PM_REDIS_DEFAULT_SEP ++ suffix)
    (p_redis_set_int K cfg (os calls) buf 1 (int_mul K.PM_REDIS_DEFAULT_EXP_TIME 60) w).bind
      fun _ w1 => .ret (calls + 1) w1
  else
    .ret calls w

/-- The statements of the handler after the loop (lines 297-323). -/
def core_handler_rest (K : Defs) (cfg : Config) (os : Nat → Oracle) (name_and_type : String)
    (calls : Nat) (w : World) : Outcome Unit :=
  let attachment : Outcome Nat :=
    if cfg.type = "core" then
      let name_and_time :=
        snprintf K.SHORTBUFLEN (cfg.name ++ K.PM_REDIS_DEFAULT_SEP ++ "attachment_time")
      (p_redis_set_string K cfg (os calls) name_and_time w.timestamp
          K.PM_REDIS_DEFAULT_EXP_TIME w).bind
        fun _ w1 =>
          .ret (calls + 1)
            (Log w1 .LOG_INFO ("INFO ( " ++ w1.redis_host.log_id ++ " ): Redis set timestamp\n"))
    else
      .ret calls w
  attachment.bind fun calls w1 =>
    if cfg.acct_type < K.ACCT_FWPLANE_MAX then
      (((core_handler_flag K cfg os cfg.nfacctd_isis "isis" name_and_type calls w1).bind
        (core_handler_flag K cfg os cfg.bgp_daemon "bgp" name_and_type)).bind
        (core_handler_flag K cfg os cfg.bmp_daemon "bmp" name_and_type)).bind
        fun calls w2 =>
          (core_handler_flag K cfg os cfg.telemetry_daemon "telemetry" name_and_type calls
            w2).bind fun _ w3 => .ret () w3
    else
      .ret () w1

/-- Function `p_redis_thread_produce_common_core_handler(rh)`. The two
`garbage` arguments are what the buffers `daemon_type` and `name_and_type`,
which have no initialiser, hold on entry; `fuel` bounds the guard
evaluations of the loop (`none`: bound reached). -/
def p_redis_thread_produce_common_core_handler (K : Defs) (cfg : Config) (os : Nat → Oracle)
    (garbage_daemon_type garbage_name_and_type : String) (fuel : Nat) (w : World) :
    Option (Outcome Unit) :=
  let daemon_type := core_handler_daemon_type K cfg garbage_daemon_type
  match core_handler_while K cfg os daemon_type fuel
      { count := 0, name_and_type := garbage_name_and_type, calls := 0, guards := 0,
        bodies := 0 } w with
  | none => none
  | some (.ret l w1) => some (core_handler_rest K cfg os l.name_and_type l.calls w1)
  | some (.exit_gracefully s w1) => some (.exit_gracefully s w1)
  | some (.fault w1) => some (.fault w1)

/-! ## Concrete values

A possible set of values of the macros, two configurations and a state, for
the statements that evaluate the code on an input. -/

/-- Values the macros can have. `parse_hostport` resolves every configured
host to the loopback address and no port. -/
def sample_defs : Defs :=
  { PM_REDIS_DEFAULT_PORT := 6379
    PM_REDIS_DEFAULT_EXP_TIME := 60
    PM_REDIS_DEFAULT_REFRESH_TIME := 20
    PM_REDIS_DEFAULT_CONN_RETRY := 4
    PM_REDIS_DEFAULT_SEP := "+"
    SUCCESS := 0
    ERR := -1
    VERYSHORTBUFLEN := 32
    SHORTBUFLEN := 64
    SRVBUFLEN := 256
    sizeof_log_id := 64
    REDIS_REPLY_ERROR := 6
    ACCT_PM := 1
    ACCT_NF := 2
    ACCT_SF := 3
    ACCT_PMBGP := 5
    ACCT_PMBMP := 6
    ACCT_PMTELE := 7
    ACCT_FWPLANE_MAX := 100
    parse_hostport := fun _ => ("127.0.0.1", 0) }

/-- A configuration with a store host and the cluster `demo`. -/
def sample_config : Config :=
  { redis_host := some "127.0.0.1"
    redis_db := 3
    cluster_name := some "demo"
    cluster_id := 0
    name := "default"
    type := "core"
    acct_type := 2
    uacctd_group := 0
    nfacctd_isis := 0
    bgp_daemon := 1
    bmp_daemon := 0
    telemetry_daemon := 0 }

/-- The same configuration without a store host. -/
def sample_config_no_host : Config := { sample_config with redis_host := none }

/-- The same configuration without a cluster name. -/
def sample_config_no_cluster : Config := { sample_config with cluster_name := none }

/-- A connection state as `p_redis_init` leaves it, after a connection at
time `1000`. -/
def sample_host : p_redis_host :=
  { log_id := "core/redis"
    db := 3
    exp_time := 3600
    last_conn := 1000
    ctx := some { err := 0, errstr := "" }
    reply := none
    th_hdlr := some 0 }

/-- A world around `sample_host`, with an empty trace. -/
def sample_world : World :=
  { redis_host := sample_host, redis_pool := some 2, timestamp := "1000+3", trace := [] }

/-- A log label of 59 bytes, as a caller that joins a long daemon name and
the type `core` passes it. -/
def sample_long_label : String :=
  "collector-frankfurt-datacenter2-rack17-primary-nfacctd/core"

/-- A world whose pending reply is a status reply. -/
def sample_world_reply : World :=
  { sample_world with redis_host := { sample_host with reply := some ⟨5, "OK"⟩ } }

/-- An answer of the environment at clock value `time`: `redisConnect`
gives `conn`, the command is answered by a status reply. -/
def sample_oracle (time : Int) (conn : Option redisContext) : Oracle :=
  { time := time
    redisConnect := conn
    tv_sec := 1700000000
    tv_usec := 5
    redisCommand := some { type := 5, str := "OK" } }

/-- The world after a successful connection at clock value `1004` and two
passes of the publish loop that call the callback and sleep. -/
def sample_world_two_passes : World :=
  { redis_host := { sample_host with last_conn := 1004 }
    redis_pool := some 2
    timestamp := "1700000000+49"
    trace :=
      [Event.redisConnect "127.0.0.1" 6379,
        Event.Log .LOG_DEBUG "DEBUG ( core/redis ): Connection successful\n",
        Event.th_hdlr 0, Event.sleep 20, Event.th_hdlr 0, Event.sleep 20] }

/-- What the `sleep` of each pass returns in the sample run: the `sleep` of
pass `1` is cut short with `3` seconds left. -/
def sample_sleeps : Nat → Nat := fun k => if k = 1 then 3 else 0

/-- A callback that touches nothing and hands back `5`. -/
def sample_handler : Nat → World → HandlerRun :=
  fun _ w =>
    { redis_host := w.redis_host, timestamp := w.timestamp, events := [],
      result := .returned 5 }

/-! ## Facts about traces and outcomes -/

theorem connect_count_append (a b : List Event) :
    connect_count (a ++ b) = connect_count a + connect_count b := by
  induction a with
  | nil => simp [connect_count]
  | cons e t ih =>
    have step : ∀ n m k : Nat, n + m + k = n + k + m := by intros; omega
    cases e <;> simp [connect_count, ih, step]

theorem command_count_append (a b : List Event) :
    command_count (a ++ b) = command_count a + command_count b := by
  induction a with
  | nil => simp [command_count]
  | cons e t ih =>
    have step : ∀ n m k : Nat, n + m + k = n + k + m := by intros; omega
    cases e <;> simp [command_count, ih, step]

/-- Inside the retry window `p_redis_connect` is its tail: the timestamp is
refreshed and nothing else happens. -/
theorem p_redis_connect_in_window (K : Defs) (cfg : Config) (o : Oracle) (fatal : Bool)
    (w : World)
    (hwin : o.time < w.redis_host.last_conn + K.PM_REDIS_DEFAULT_CONN_RETRY) :
    p_redis_connect K cfg o fatal w =
      .ret K.SUCCESS { w with timestamp := session_timestamp K o } := by
  unfold p_redis_connect p_redis_connect_stamp
  cases cfg.redis_host with
  | none => rfl
  | some hp => simp [not_le.mpr hwin]

/-- The two ways a non-fatal `p_redis_connect` can go: either it calls
`redisConnect` once, the window has elapsed and a returning call leaves
`last_conn` at the clock value; or it calls nothing and returns with the
connection state and the trace as they were. -/
theorem p_redis_connect_cases (K : Defs) (cfg : Config) (o : Oracle) (w : World) :
    (connect_count (p_redis_connect K cfg o false w).world.trace = connect_count w.trace + 1 ∧
      w.redis_host.last_conn + K.PM_REDIS_DEFAULT_CONN_RETRY ≤ o.time ∧
      ∀ v w1, p_redis_connect K cfg o false w = .ret v w1 → w1.redis_host.last_conn = o.time) ∨
    (∃ v w1, p_redis_connect K cfg o false w = .ret v w1 ∧ w1.redis_host = w.redis_host ∧
      w1.trace = w.trace) := by
  unfold p_redis_connect p_redis_connect_stamp
  cases hh : cfg.redis_host with
  | none => right; exact ⟨_, _, rfl, rfl, rfl⟩
  | some hp =>
    by_cases hdue : w.redis_host.last_conn + K.PM_REDIS_DEFAULT_CONN_RETRY ≤ o.time
    · left
      cases hc : o.redisConnect with
      | none =>
        simp [hdue, Outcome.world, Log, connect_count_append, connect_count]
      | some c =>
        by_cases herr : c.err = 0
        · simp [hdue, herr, Outcome.world, Log, connect_count_append, connect_count]
        · simp [hdue, herr, Outcome.world, connect_count_append, connect_count]
    · right
      simp only [ge_iff_le, if_neg hdue]
      exact ⟨_, _, rfl, rfl, rfl⟩

/-- Every clock value listed by `attempt_times` is the clock value of one of
the calls. -/
theorem attempt_times_subset (K : Defs) (cfg : Config) (os : List Oracle) :
    ∀ (w : World) (t : Int), t ∈ attempt_times K cfg os w → t ∈ os.map Oracle.time := by
  induction os with
  | nil => intro w t h; simp [attempt_times] at h
  | cons o os ih =>
    intro w t h
    simp only [attempt_times] at h
    have hrest : ∀ t, t ∈ (match p_redis_connect K cfg o false w with
        | .ret _ w1 => attempt_times K cfg os w1
        | _ => []) → t ∈ os.map Oracle.time := by
      intro t ht
      cases hr : p_redis_connect K cfg o false w with
      | ret v w1 => rw [hr] at ht; exact ih w1 t ht
      | exit_gracefully s w1 => rw [hr] at ht; simp at ht
      | fault w1 => rw [hr] at ht; simp at ht
    split at h
    · rcases List.mem_cons.mp h with h | h
      · simp [h]
      · exact List.mem_cons_of_mem _ (hrest t h)
    · exact List.mem_cons_of_mem _ (hrest t h)

/-- Under a non-decreasing clock every attempt of a sequence comes no
earlier than `last_conn + PM_REDIS_DEFAULT_CONN_RETRY` of the state the
sequence starts in, and any two attempts are that far apart. -/
theorem attempt_times_spaced (K : Defs) (cfg : Config) (os : List Oracle) :
    ∀ w : World, (os.map Oracle.time).Pairwise (fun a b => a ≤ b) →
      (∀ t ∈ attempt_times K cfg os w,
        w.redis_host.last_conn + K.PM_REDIS_DEFAULT_CONN_RETRY ≤ t) ∧
      (attempt_times K cfg os w).Pairwise
        (fun a b => a + K.PM_REDIS_DEFAULT_CONN_RETRY ≤ b) := by
  induction os with
  | nil => intro w _; simp [attempt_times]
  | cons o os ih =>
    intro w hs
    rw [List.map_cons, List.pairwise_cons] at hs
    obtain ⟨hhead, htail⟩ := hs
    simp only [attempt_times]
    rcases p_redis_connect_cases K cfg o w with ⟨hcnt, hdue, hlast⟩ | ⟨v, w1, hr, hhost, htr⟩
    · rw [if_pos (by omega)]
      cases hr : p_redis_connect K cfg o false w with
      | ret v w1 =>
        have hl := hlast v w1 hr
        obtain ⟨ih1, ih2⟩ := ih w1 htail
        rw [hl] at ih1
        refine ⟨?_, ?_⟩
        · intro t ht
          rcases List.mem_cons.mp ht with h | h
          · rw [h]; exact hdue
          · have := hhead t (attempt_times_subset K cfg os w1 t h)
            omega
        · exact List.pairwise_cons.mpr ⟨ih1, ih2⟩
      | exit_gracefully s w1 => simp [hdue]
      | fault w1 => simp [hdue]
    · have hw : (p_redis_connect K cfg o false w).world = w1 := by rw [hr]; rfl
      rw [hw, htr, if_neg (by omega), hr]
      obtain ⟨ih1, ih2⟩ := ih w1 htail
      rw [hhost] at ih1
      exact ⟨ih1, ih2⟩

/-- What `p_redis_connect` adds to the trace holds no `redisCommand`. -/
theorem p_redis_connect_trace (K : Defs) (cfg : Config) (o : Oracle) (fatal : Bool)
    (w : World) :
    ∃ rest, (p_redis_connect K cfg o fatal w).world.trace = w.trace ++ rest ∧
      command_count rest = 0 := by
  unfold p_redis_connect p_redis_connect_stamp
  cases cfg.redis_host with
  | none => exact ⟨[], by simp [Outcome.world], rfl⟩
  | some hp =>
    by_cases hdue : w.redis_host.last_conn + K.PM_REDIS_DEFAULT_CONN_RETRY ≤ o.time
    · cases o.redisConnect with
      | none =>
        simp only [ge_iff_le, hdue, if_true, Outcome.world, Log, List.append_assoc]
        exact ⟨_, rfl, rfl⟩
      | some c =>
        by_cases herr : c.err = 0
        · simp only [ge_iff_le, hdue, herr, if_true, ne_eq, not_true_eq_false, if_false,
            Outcome.world, Log, List.append_assoc]
          exact ⟨_, rfl, rfl⟩
        · cases fatal with
          | true =>
            simp only [ge_iff_le, hdue, herr, if_true, ne_eq, not_false_eq_true,
              Outcome.world, Log, List.append_assoc]
            exact ⟨_, rfl, rfl⟩
          | false =>
            simp only [ge_iff_le, hdue, herr, if_true, ne_eq, not_false_eq_true,
              Bool.false_eq_true, if_false, Outcome.world]
            exact ⟨_, rfl, rfl⟩
    · simp only [ge_iff_le, hdue, if_false, Outcome.world]
      exact ⟨[], by simp, rfl⟩

/-- The world of a sequenced call that only hands the world on. -/
theorem bind_ret_world {α : Type} (r : Outcome α) :
    (r.bind (fun _ w1 => (Outcome.ret () w1 : Outcome Unit))).world = r.world := by
  cases r <;> rfl

/-- What `p_redis_process_reply` adds to the trace holds no `redisCommand`. -/
theorem p_redis_process_reply_trace (K : Defs) (cfg : Config) (o : Oracle) (w : World) :
    ∃ rest, (p_redis_process_reply K cfg o w).world.trace = w.trace ++ rest ∧
      command_count rest = 0 := by
  unfold p_redis_process_reply
  cases w.redis_host.reply with
  | none =>
    simp only [bind_ret_world]
    exact p_redis_connect_trace K cfg o false w
  | some r =>
    by_cases herr : r.type = K.REDIS_REPLY_ERROR
    · simp only [herr, if_true, Outcome.world, Log, List.append_assoc]
      exact ⟨_, rfl, rfl⟩
    · simp only [herr, if_false, Outcome.world]
      exact ⟨_, rfl, rfl⟩

/-! ## Connection: rate limit (C2) -/

/-- C2. A call of `p_redis_connect` whose clock value is below
`last_conn + PM_REDIS_DEFAULT_CONN_RETRY` returns `SUCCESS` in a world that
differs from the one before only in the global `timestamp`: the trace has no
new `redisConnect`, and `last_conn` and `ctx` are as before; this holds for
every configuration, so also with a store host configured.
And in every sequence of `p_redis_connect(redis_host, FALSE)` calls under a
non-decreasing clock, any two calls that reach `redisConnect` have clock
values at least `PM_REDIS_DEFAULT_CONN_RETRY` apart. -/
theorem p_redis_connect_rate_limited (K : Defs) (cfg : Config) (o : Oracle) (fatal : Bool)
    (w : World) (os : List Oracle) (w0 : World)
    (hwin : o.time < w.redis_host.last_conn + K.PM_REDIS_DEFAULT_CONN_RETRY)
    (hclock : (os.map Oracle.time).Pairwise (fun a b => a ≤ b)) :
    (p_redis_connect K cfg o fatal w =
        .ret K.SUCCESS { w with timestamp := session_timestamp K o } ∧
      connect_count (p_redis_connect K cfg o fatal w).world.trace = connect_count w.trace ∧
      (p_redis_connect K cfg o fatal w).world.redis_host.last_conn = w.redis_host.last_conn ∧
      (p_redis_connect K cfg o fatal w).world.redis_host.ctx = w.redis_host.ctx) ∧
    (attempt_times K cfg os w0).Pairwise
      (fun a b => a + K.PM_REDIS_DEFAULT_CONN_RETRY ≤ b) := by
  refine ⟨?_, (attempt_times_spaced K cfg os w0 hclock).2⟩
  rw [p_redis_connect_in_window K cfg o fatal w hwin]
  exact ⟨rfl, rfl, rfl, rfl⟩

/-- A call at clock value `1001`, inside the window that opened at `1000`,
and a sequence of five calls of which the first, third and fifth reach
`redisConnect`. -/
theorem p_redis_connect_rate_limited_witness :
    ((1001 : Int) < sample_world.redis_host.last_conn +
          sample_defs.PM_REDIS_DEFAULT_CONN_RETRY ∧
      attempt_times sample_defs sample_config
          [sample_oracle 1004 (some ⟨1, "refused"⟩), sample_oracle 1006 (some ⟨0, ""⟩),
            sample_oracle 1008 (some ⟨0, ""⟩), sample_oracle 1011 (some ⟨0, ""⟩),
            sample_oracle 1012 (some ⟨0, ""⟩)] sample_world = [1004, 1008, 1012]) ∧
    ((p_redis_connect sample_defs sample_config (sample_oracle 1001 none) false sample_world =
        .ret sample_defs.SUCCESS
          { sample_world with
            timestamp := session_timestamp sample_defs (sample_oracle 1001 none) } ∧
      connect_count
          (p_redis_connect sample_defs sample_config (sample_oracle 1001 none) false
            sample_world).world.trace = connect_count sample_world.trace ∧
      (p_redis_connect sample_defs sample_config (sample_oracle 1001 none) false
          sample_world).world.redis_host.last_conn = sample_world.redis_host.last_conn ∧
      (p_redis_connect sample_defs sample_config (sample_oracle 1001 none) false
          sample_world).world.redis_host.ctx = sample_world.redis_host.ctx) ∧
    (attempt_times sample_defs sample_config
        [sample_oracle 1004 (some ⟨1, "refused"⟩), sample_oracle 1006 (some ⟨0, ""⟩),
          sample_oracle 1008 (some ⟨0, ""⟩), sample_oracle 1011 (some ⟨0, ""⟩),
          sample_oracle 1012 (some ⟨0, ""⟩)] sample_world).Pairwise
      (fun a b => a + sample_defs.PM_REDIS_DEFAULT_CONN_RETRY ≤ b)) :=
  ⟨⟨by decide, by decide⟩,
    p_redis_connect_rate_limited sample_defs sample_config (sample_oracle 1001 none) false
      sample_world _ sample_world (by decide) (by decide)⟩

/-! ## Connection: what a failed attempt does (C3) -/

/-- C4, as stated, fails: after `p_redis_process_reply` on a state with a
pending reply, the field `reply` still holds that reply; it is not absent. -/
theorem p_redis_process_reply_keeps_field :
    sample_world_reply.redis_host.reply = some ⟨5, "OK"⟩ ∧
      p_redis_process_reply sample_defs sample_config (sample_oracle 1004 none)
          sample_world_reply =
        .ret () { sample_world_reply with trace := [Event.freeReplyObject ⟨5, "OK"⟩] } ∧
      (p_redis_process_reply sample_defs sample_config (sample_oracle 1004 none)
          sample_world_reply).world.redis_host.reply ≠ none := by
  decide

/-- C4, amended. On a state whose pending reply `r` is present,
`p_redis_process_reply` returns in a world that differs from the one before
only in the trace: a warning if `r` is an error reply, then one
`freeReplyObject(r)`. So the reply is released exactly once, no
`redisConnect` is made, and every field of the state, the field `reply`
included, is as before. -/
theorem p_redis_process_reply_frees (K : Defs) (cfg : Config) (o : Oracle) (w : World)
    (r : redisReply) (hreply : w.redis_host.reply = some r) :
    ∃ evs,
      p_redis_process_reply K cfg o w = .ret () { w with trace := w.trace ++ evs } ∧
      evs =
        (if r.type = K.REDIS_REPLY_ERROR then
          [Event.Log .LOG_WARNING
            ("WARN ( " ++ w.redis_host.log_id ++ " ): reply='" ++ r.str ++ "'\n")]
        else []) ++ [Event.freeReplyObject r] ∧
      free_count evs = 1 ∧ connect_count evs = 0 ∧
      (p_redis_process_reply K cfg o w).world.redis_host = w.redis_host := by
  unfold p_redis_process_reply
  rw [hreply]
  by_cases herr : r.type = K.REDIS_REPLY_ERROR
  · simp only [herr, if_true, Log, List.append_assoc]
    exact ⟨_, rfl, rfl, rfl, rfl, rfl⟩
  · simp only [herr, if_false]
    exact ⟨_, rfl, rfl, rfl, rfl, rfl⟩

/-- One run on an error reply: a warning, then the release. -/
theorem p_redis_process_reply_frees_witness :
    ({ sample_world with
        redis_host := { sample_host with reply := some ⟨6, "ERR unknown command"⟩ } } :
      World).redis_host.reply = some ⟨6, "ERR unknown command"⟩ ∧
    ∃ evs,
      p_redis_process_reply sample_defs sample_config (sample_oracle 1004 none)
          { sample_world with
            redis_host := { sample_host with reply := some ⟨6, "ERR unknown command"⟩ } } =
        .ret ()
          { redis_host := { sample_host with reply := some ⟨6, "ERR unknown command"⟩ }
            redis_pool := sample_world.redis_pool
            timestamp := sample_world.timestamp
            trace := sample_world.trace ++ evs } ∧
      evs =
        (if (6 : Int) = sample_defs.REDIS_REPLY_ERROR then
          [Event.Log .LOG_WARNING
            ("WARN ( " ++ sample_host.log_id ++ " ): reply='" ++ "ERR unknown command" ++ "'\n")]
        else []) ++ [Event.freeReplyObject ⟨6, "ERR unknown command"⟩] ∧
      free_count evs = 1 ∧ connect_count evs = 0 ∧
      (p_redis_process_reply sample_defs sample_config (sample_oracle 1004 none)
          { sample_world with
            redis_host := { sample_host with reply := some ⟨6, "ERR unknown command"⟩ } }).world.redis_host
        = { sample_host with reply := some ⟨6, "ERR unknown command"⟩ } :=
  ⟨rfl,
    p_redis_process_reply_frees sample_defs sample_config (sample_oracle 1004 none)
      { sample_world with redis_host := { sample_host with reply := some ⟨6, "ERR unknown command"⟩ } }
      ⟨6, "ERR unknown command"⟩ rfl⟩

/-! ## Bootstrap (C5, C7) -/

/-- C5, as stated, fails: with no store host configured, `p_redis_init`
returns in a world whose connection state is all zero, not the state it was
given. -/
theorem p_redis_init_no_host_zeroes :
    sample_config_no_host.redis_host = none ∧
      p_redis_init sample_defs sample_config_no_host (some ()) (some "core") (some 0)
          sample_world =
        .ret () { sample_world with redis_host := p_redis_host.zero } ∧
      (p_redis_init sample_defs sample_config_no_host (some ()) (some "core") (some 0)
          sample_world).world.redis_host ≠ sample_world.redis_host := by
  decide

/-- C5, amended. With the three arguments present and no store host
configured, `p_redis_init` returns in a world that differs from the one
before only in the connection state, which is all zero: the trace is as
before (no worker is handed to the pool, nothing is logged) and the process
goes on. -/
theorem p_redis_init_no_host (K : Defs) (cfg : Config) (log_id : String) (h : Nat)
    (w : World) (hcfg : cfg.redis_host = none) :
    p_redis_init K cfg (some ()) (some log_id) (some h) w =
        .ret () { w with redis_host := p_redis_host.zero } ∧
      spawn_count (p_redis_init K cfg (some ()) (some log_id) (some h) w).world.trace =
        spawn_count w.trace := by
  have hdef : p_redis_init K cfg (some ()) (some log_id) (some h) w =
      .ret () { w with redis_host := p_redis_host.zero } := by
    simp only [p_redis_init, hcfg]
  rw [hdef]
  exact ⟨rfl, rfl⟩

/-- A run of `p_redis_init` without a store host. -/
theorem p_redis_init_no_host_witness :
    sample_config_no_host.redis_host = none ∧
      p_redis_init sample_defs sample_config_no_host (some ()) (some "core") (some 0)
          sample_world =
        .ret () { sample_world with redis_host := p_redis_host.zero } ∧
      spawn_count
          (p_redis_init sample_defs sample_config_no_host (some ()) (some "core") (some 0)
            sample_world).world.trace = spawn_count sample_world.trace :=
  ⟨rfl, p_redis_init_no_host sample_defs sample_config_no_host "core" 0 sample_world rfl⟩

/-- The label and `"/redis"` fit in the array exactly when the label has
fewer than `sizeof(log_id) - 6` bytes; then `p_redis_set_log_id` returns with
`log_id` equal to the label followed by `"/redis"`, and otherwise it writes
past the array. -/
theorem p_redis_set_log_id_cases (K : Defs) (w : World) (log_id : String) :
    (log_id.utf8ByteSize + 6 < K.sizeof_log_id →
      p_redis_set_log_id K w log_id =
        .ret () { w with redis_host := { w.redis_host with log_id := log_id ++ "/redis" } }) ∧
    (K.sizeof_log_id ≤ log_id.utf8ByteSize + 6 → p_redis_set_log_id K w log_id = .fault w) := by
  have h6 : "/redis".utf8ByteSize = 6 := by decide
  unfold p_redis_set_log_id
  rw [h6]
  refine ⟨?_, ?_⟩
  · intro h
    rw [if_pos]
    simp only [Nat.min_def]
    split_ifs <;> omega
  · intro h
    rw [if_neg]
    simp only [Nat.min_def]
    split_ifs <;> omega

/-- C7: the code at a failing input. The array `log_id` has 64 bytes and the
label 59. `strlcpy` stores the 59 bytes, `strncat` is allowed `64 - 59 = 5`
more and stores `"/redi"` and then a terminator, one byte past the array:
with a store host configured `p_redis_init` neither logs the error and ends
the process (no cluster name) nor hands the worker to the pool (cluster name
configured); the trace is as it was. -/
theorem p_redis_init_long_label_faults :
    sample_long_label.utf8ByteSize = 59 ∧ sample_defs.sizeof_log_id = 64 ∧
      sample_config_no_cluster.redis_host = some "127.0.0.1" ∧
      sample_config_no_cluster.cluster_name = none ∧
      p_redis_init sample_defs sample_config_no_cluster (some ()) (some sample_long_label)
          (some 0) sample_world =
        .fault { sample_world with redis_host := p_redis_host.zero } ∧
      sample_config.redis_host = some "127.0.0.1" ∧
      sample_config.cluster_name = some "demo" ∧
      p_redis_init sample_defs sample_config (some ()) (some sample_long_label) (some 0)
          sample_world =
        .fault { sample_world with redis_host := p_redis_host.zero } ∧
      spawn_count
          (p_redis_init sample_defs sample_config (some ()) (some sample_long_label) (some 0)
            sample_world).world.trace = 0 := by
  decide

/-- What `p_redis_init` does for a label of fewer than `sizeof(log_id) - 6`
bytes, with the three arguments present and a store host configured:
without a cluster name it logs one error and ends the process with status
`1`, and the trace has no new `send_to_pool`; with a cluster name it returns
after exactly one `send_to_pool`, which carries the state with `log_id` the
label followed by `"/redis"`, `db` equal to `config.redis_db`, `exp_time`
equal to the `int` product `PM_REDIS_DEFAULT_EXP_TIME*60` and `th_hdlr` equal
to the callback. -/
theorem p_redis_init_with_host (K : Defs) (cfg : Config) (log_id : String) (h : Nat)
    (w : World) (hostport : String) (hcfg : cfg.redis_host = some hostport)
    (hlabel : log_id.utf8ByteSize + 6 < K.sizeof_log_id) :
    (cfg.cluster_name = none →
      ∃ host msg,
        p_redis_init K cfg (some ()) (some log_id) (some h) w =
          .exit_gracefully 1
            { w with redis_host := host, trace := w.trace ++ [Event.Log .LOG_ERR msg] } ∧
        (1 : Int) ≠ 0 ∧ spawn_count [Event.Log .LOG_ERR msg] = 0) ∧
    (∀ cluster_name, cfg.cluster_name = some cluster_name →
      ∃ host msg,
        p_redis_init K cfg (some ()) (some log_id) (some h) w =
          .ret ()
            { redis_host := host
              redis_pool := some 2
              timestamp := w.timestamp
              trace :=
                w.trace ++
                  [Event.allocate_thread_pool 2, Event.Log .LOG_DEBUG msg,
                    Event.send_to_pool host] } ∧
        spawn_count
            [Event.allocate_thread_pool 2, Event.Log .LOG_DEBUG msg, Event.send_to_pool host] =
          1 ∧
        host.log_id = log_id ++ "/redis" ∧
        host.db = cfg.redis_db ∧
        host.exp_time = int_mul K.PM_REDIS_DEFAULT_EXP_TIME 60 ∧
        (-2 ^ 31 ≤ K.PM_REDIS_DEFAULT_EXP_TIME * 60 ∧ K.PM_REDIS_DEFAULT_EXP_TIME * 60 < 2 ^ 31 →
          host.exp_time = K.PM_REDIS_DEFAULT_EXP_TIME * 60) ∧
        host.th_hdlr = some h) := by
  have hfit := (p_redis_set_log_id_cases K { w with redis_host := p_redis_host.zero } log_id).1
    hlabel
  refine ⟨?_, ?_⟩
  · intro hcn
    simp only [p_redis_init, hcfg, hcn, hfit, Outcome.bind, Log]
    exact ⟨_, _, rfl, by decide, rfl⟩
  · intro cn hcn
    simp only [p_redis_init, hcfg, hcn, hfit, Outcome.bind, p_redis_thread_wrapper, Log,
      List.append_assoc]
    refine ⟨_, _, rfl, rfl, rfl, rfl, rfl, ?_, rfl⟩
    intro hrange
    simp only [p_redis_set_thread_handler, p_redis_set_exp_time, int_mul]
    omega

/-- A run of `p_redis_init` without a cluster name and one with the cluster
`demo`, both with the label `core`. -/
theorem p_redis_init_with_host_witness :
    (sample_config_no_cluster.redis_host = some "127.0.0.1" ∧
      sample_config_no_cluster.cluster_name = none ∧
      sample_config.redis_host = some "127.0.0.1" ∧
      sample_config.cluster_name = some "demo" ∧
      "core".utf8ByteSize + 6 < sample_defs.sizeof_log_id) ∧
    (∃ host msg,
      p_redis_init sample_defs sample_config_no_cluster (some ()) (some "core") (some 0)
          sample_world =
        .exit_gracefully 1
          { sample_world with
            redis_host := host, trace := sample_world.trace ++ [Event.Log .LOG_ERR msg] } ∧
      (1 : Int) ≠ 0 ∧ spawn_count [Event.Log .LOG_ERR msg] = 0) ∧
    p_redis_init sample_defs sample_config (some ()) (some "core") (some 0) sample_world =
      .ret ()
        { redis_host :=
            { p_redis_host.zero with
              log_id := "core/redis", db := 3, exp_time := 3600, th_hdlr := some 0 }
          redis_pool := some 2
          timestamp := sample_world.timestamp
          trace :=
            [Event.allocate_thread_pool 2,
              Event.Log .LOG_DEBUG "DEBUG ( core/redis ): 1 thread(s) initialized\n",
              Event.send_to_pool
                { p_redis_host.zero with
                  log_id := "core/redis", db := 3, exp_time := 3600, th_hdlr := some 0 }] } :=
  ⟨⟨rfl, rfl, rfl, rfl, by decide⟩,
    (p_redis_init_with_host sample_defs sample_config_no_cluster "core" 0 sample_world
      "127.0.0.1" rfl (by decide)).1 rfl,
    by decide⟩

/-! ## Publish primitives (C6) -/

/-- C6: the code at a failing input. Called with `expire = 60` on a state
whose `exp_time` is `3600`, `p_redis_set_string` passes the test
`expire > 0` and then sends `redis_host->exp_time`: the `SETEX` it issues
carries the time-to-live `3600`, and no `SETEX` with the time-to-live `60` that
the caller asked for is issued. The key is `demo+0+resource`, as stated. -/
theorem p_redis_set_string_ttl_is_exp_time :
    sample_world.redis_host.exp_time = 3600 ∧
      p_redis_set_string sample_defs sample_config (sample_oracle 1004 none) "resource"
          "value" 60 sample_world =
        .ret ()
          { sample_world with
            redis_host := { sample_host with reply := some ⟨5, "OK"⟩ }
            trace :=
              [Event.redisCommand ["SETEX", "demo+0+resource", "3600", "value"],
                Event.freeReplyObject ⟨5, "OK"⟩] } ∧
      Event.redisCommand ["SETEX", "demo+0+resource", "60", "value"] ∉
        (p_redis_set_string sample_defs sample_config (sample_oracle 1004 none) "resource"
          "value" 60 sample_world).world.trace := by
  decide

/-- What `p_redis_set_string` sends, for every input with a cluster name
configured: exactly one command, whose key is `cluster_name ++ SEP ++
decimal(cluster_id) ++ SEP ++ resource`; when `expire > 0` it is `SETEX`
whose time-to-live is `redis_host->exp_time` of the state, whatever positive
value `expire` has, and when `expire <= 0` it is `SET` with no time-to-live. -/
theorem p_redis_set_string_command (K : Defs) (cfg : Config) (o : Oracle)
    (resource value : String) (expire : Int) (w : World) (cluster_name : String)
    (hcn : cfg.cluster_name = some cluster_name) :
    ∃ rest,
      (p_redis_set_string K cfg o resource value expire w).world.trace =
        w.trace ++
          Event.redisCommand
            (if expire > 0 then
              ["SETEX",
                cluster_name ++ K.PM_REDIS_DEFAULT_SEP ++ toString cfg.cluster_id ++
                  K.PM_REDIS_DEFAULT_SEP ++ resource,
                toString w.redis_host.exp_time, value]
            else
              ["SET",
                cluster_name ++ K.PM_REDIS_DEFAULT_SEP ++ toString cfg.cluster_id ++
                  K.PM_REDIS_DEFAULT_SEP ++ resource,
                value]) :: rest ∧
      command_count rest = 0 ∧
      command_count (p_redis_set_string K cfg o resource value expire w).world.trace =
        command_count w.trace + 1 := by
  simp only [p_redis_set_string, hcn, redis_key]
  by_cases hexp : expire > 0
  · simp only [hexp, if_true]
    obtain ⟨rest, h1, h2⟩ := p_redis_process_reply_trace K cfg o
      (redisCommand o ["SETEX",
        cluster_name ++ K.PM_REDIS_DEFAULT_SEP ++ toString cfg.cluster_id ++
          K.PM_REDIS_DEFAULT_SEP ++ resource,
        toString w.redis_host.exp_time, value] w)
    refine ⟨rest, ?_, h2, ?_⟩
    · rw [h1]; simp [redisCommand]
    · rw [h1]; simp [redisCommand, command_count_append, command_count, h2]
  · simp only [hexp, if_false]
    obtain ⟨rest, h1, h2⟩ := p_redis_process_reply_trace K cfg o
      (redisCommand o ["SET",
        cluster_name ++ K.PM_REDIS_DEFAULT_SEP ++ toString cfg.cluster_id ++
          K.PM_REDIS_DEFAULT_SEP ++ resource, value] w)
    refine ⟨rest, ?_, h2, ?_⟩
    · rw [h1]; simp [redisCommand]
    · rw [h1]; simp [redisCommand, command_count_append, command_count, h2]

/-- A `SETEX` for the resource `resource` of the cluster `demo`. -/
theorem p_redis_set_string_command_witness :
    sample_config.cluster_name = some "demo" ∧
    ∃ rest,
      (p_redis_set_string sample_defs sample_config (sample_oracle 1004 none) "resource"
          "value" 60 sample_world).world.trace =
        sample_world.trace ++
          Event.redisCommand
            (if (60 : Int) > 0 then
              ["SETEX",
                "demo" ++ sample_defs.PM_REDIS_DEFAULT_SEP ++ toString sample_config.cluster_id ++
                  sample_defs.PM_REDIS_DEFAULT_SEP ++ "resource",
                toString sample_world.redis_host.exp_time, "value"]
            else
              ["SET",
                "demo" ++ sample_defs.PM_REDIS_DEFAULT_SEP ++ toString sample_config.cluster_id ++
                  sample_defs.PM_REDIS_DEFAULT_SEP ++ "resource",
                "value"]) :: rest ∧
      command_count rest = 0 ∧
      command_count
          (p_redis_set_string sample_defs sample_config (sample_oracle 1004 none) "resource"
            "value" 60 sample_world).world.trace = command_count sample_world.trace + 1 :=
  ⟨rfl,
    p_redis_set_string_command sample_defs sample_config (sample_oracle 1004 none) "resource"
      "value" 60 sample_world "demo" rfl⟩

/-! ## Session timestamp (C9) -/

/-- Exclusive or with `3` touches the two lowest bits only. -/
theorem xor_three_div_four (x : Nat) : (x ^^^ 3) / 4 = x / 4 := by
  have h : (x ^^^ 3) / 2 / 2 = x / 2 / 2 := by
    rw [Nat.xor_div_two, Nat.xor_div_two]
    simp
  rw [Nat.div_div_eq_div_mul, Nat.div_div_eq_div_mul] at h
  exact h

/-- The number that `p_redis_connect` formats after the separator is never
the `tv_usec` it was computed from. -/
theorem session_timestamp_number_ne (o : Oracle) : (o.tv_usec * 10) ^^^ 3 ≠ o.tv_usec := by
  intro h
  have h1 := xor_three_div_four (o.tv_usec * 10)
  rw [h] at h1
  have hu : o.tv_usec = 0 := by omega
  rw [hu] at h
  simp at h

/-- C9: the code at two inputs. At `tv_sec = 1700000000`, `tv_usec = 5` the
timestamp that `p_redis_connect` records is `"1700000000+49"`, since
`5*10^3` is `50 xor 3 = 49` in C; at `tv_usec = 0` it is `"1700000000+3"`.
Seconds and microseconds joined by the separator would be `"1700000000+5"`
and `"1700000000+0"`. -/
theorem p_redis_connect_timestamp_xor :
    (sample_oracle 1001 none).tv_sec = 1700000000 ∧ (sample_oracle 1001 none).tv_usec = 5 ∧
      (p_redis_connect sample_defs sample_config (sample_oracle 1001 none) false
          sample_world).world.timestamp = "1700000000+49" ∧
      (p_redis_connect sample_defs sample_config (sample_oracle 1001 none) false
          sample_world).world.timestamp ≠
        toString (1700000000 : Int) ++ sample_defs.PM_REDIS_DEFAULT_SEP ++ toString (5 : Nat) ∧
      (p_redis_connect sample_defs sample_config
          { sample_oracle 1001 none with tv_usec := 0 } false sample_world).world.timestamp =
        "1700000000+3" := by
  decide

/-! ## Periodic publish loop (C1, C8) -/

/-- C1, as stated, fails: a callback that hands back `5` is followed by
`sleep(20)`, the value of `PM_REDIS_DEFAULT_REFRESH_TIME` here, not by
`sleep(5)`. -/
theorem produce_iteration_ignores_result :
    sample_world.redis_host.th_hdlr = some 0 ∧
      (sample_handler 0 sample_world).result = .returned 5 ∧
      produce_iteration sample_defs sample_handler 0 0 0 sample_world =
        .ret (0, 20) { sample_world with trace := [Event.th_hdlr 0, Event.sleep 20] } ∧
      Event.sleep 5 ∉
        (produce_iteration sample_defs sample_handler 0 0 0 sample_world).world.trace := by
  decide

/-- C1, amended. In a pass of the loop that starts with `ret == 0`, so that
the callback `h` of the state is called, and in which the callback comes
back with any value `N`, the period handed to `sleep` is
`PM_REDIS_DEFAULT_REFRESH_TIME` (as an `unsigned int`), whatever `N` is: the
pass is the callback, then `sleep(PM_REDIS_DEFAULT_REFRESH_TIME)`. -/
theorem produce_iteration_default_period (K : Defs) (H : Nat → World → HandlerRun)
    (slept period : Nat) (w : World) (h N : Nat)
    (hh : w.redis_host.th_hdlr = some h) (hN : (H h w).result = .returned N) :
    produce_iteration K H slept 0 period w =
      .ret (slept, K.PM_REDIS_DEFAULT_REFRESH_TIME % 2 ^ 32)
        { w with
          redis_host := (H h w).redis_host
          timestamp := (H h w).timestamp
          trace :=
            w.trace ++ [Event.th_hdlr h] ++ (H h w).events ++
              [Event.sleep (K.PM_REDIS_DEFAULT_REFRESH_TIME % 2 ^ 32)] } := by
  simp only [produce_iteration, call_th_hdlr, hh, hN, if_true, Outcome.bind]

/-- A pass in which the callback hands back `5`. -/
theorem produce_iteration_default_period_witness :
    (sample_world.redis_host.th_hdlr = some 0 ∧
      (sample_handler 0 sample_world).result = .returned 5) ∧
    produce_iteration sample_defs sample_handler 0 0 0 sample_world =
      .ret (0, sample_defs.PM_REDIS_DEFAULT_REFRESH_TIME % 2 ^ 32)
        { sample_world with
          redis_host := (sample_handler 0 sample_world).redis_host
          timestamp := (sample_handler 0 sample_world).timestamp
          trace :=
            sample_world.trace ++ [Event.th_hdlr 0] ++ (sample_handler 0 sample_world).events ++
              [Event.sleep (sample_defs.PM_REDIS_DEFAULT_REFRESH_TIME % 2 ^ 32)] } :=
  ⟨⟨rfl, rfl⟩,
    produce_iteration_default_period sample_defs sample_handler 0 0 sample_world 0 5 rfl rfl⟩

/-- When the thread function has come through `n` passes, the connection
at its start returned and the loop, started with `ret = 0` and `period = 0`
in the world the connection left, has come through `n` passes. -/
theorem p_redis_master_produce_thread_ret (K : Defs) (cfg : Config)
    (H : Nat → World → HandlerRun) (o : Oracle) (sleeps : Nat → Nat) (n : Nat) (w : World)
    (l : Nat × Nat) (w1 : World)
    (hrun : p_redis_master_produce_thread K cfg H o sleeps n w = .ret l w1) :
    ∃ v w0, p_redis_connect K cfg o true w = .ret v w0 ∧
      produce_loop K H sleeps n (0, 0) w0 = .ret l w1 := by
  simp only [p_redis_master_produce_thread] at hrun
  cases hc : p_redis_connect K cfg o true w with
  | ret v w0 =>
    rw [hc] at hrun
    exact ⟨v, w0, rfl, hrun⟩
  | exit_gracefully st w0 => rw [hc] at hrun; simp [Outcome.bind] at hrun
  | fault w0 => rw [hc] at hrun; simp [Outcome.bind] at hrun

/-- The local `ret` after pass `n` of the loop is what the `sleep` of that
pass returned. -/
theorem produce_loop_ret (K : Defs) (H : Nat → World → HandlerRun) (sleeps : Nat → Nat)
    (n : Nat) (locals : Nat × Nat) (w : World) (l : Nat × Nat) (w1 : World)
    (hrun : produce_loop K H sleeps (n + 1) locals w = .ret l w1) : l.1 = sleeps n := by
  simp only [produce_loop] at hrun
  cases hprev : produce_loop K H sleeps n locals w with
  | ret l0 w0 =>
    rw [hprev] at hrun
    simp only [Outcome.bind, produce_iteration] at hrun
    by_cases hz : l0.1 = 0
    · simp only [hz, if_true] at hrun
      cases hc : call_th_hdlr H w0 with
      | ret v w2 =>
        rw [hc] at hrun
        simp only [Outcome.ret.injEq] at hrun
        rw [← hrun.1]
      | exit_gracefully st w2 => rw [hc] at hrun; simp at hrun
      | fault w2 => rw [hc] at hrun; simp at hrun
    · simp only [hz, if_false, Outcome.ret.injEq] at hrun
      rw [← hrun.1]
  | exit_gracefully st w0 => rw [hprev] at hrun; simp [Outcome.bind] at hrun
  | fault w0 => rw [hprev] at hrun; simp [Outcome.bind] at hrun

/-- A pass that starts with `ret == 0` and a callback `h` in the state
begins with the call of `h`. -/
theorem produce_iteration_calls (K : Defs) (H : Nat → World → HandlerRun)
    (slept period : Nat) (w : World) (h : Nat) (hh : w.redis_host.th_hdlr = some h) :
    ∃ rest,
      (produce_iteration K H slept 0 period w).world.trace =
        w.trace ++ Event.th_hdlr h :: rest := by
  simp only [produce_iteration, call_th_hdlr, hh, if_true]
  cases (H h w).result with
  | returned N =>
    simp only [Outcome.bind, Outcome.world, List.append_assoc, List.singleton_append]
    exact ⟨_, rfl⟩
  | exit_gracefully st =>
    simp only [Outcome.bind, Outcome.world, List.append_assoc, List.singleton_append]
    exact ⟨_, rfl⟩
  | fault =>
    simp only [Outcome.bind, Outcome.world, List.append_assoc, List.singleton_append]
    exact ⟨_, rfl⟩

/-- C8. Let the thread function have come through the passes `0 .. n` of
its loop and be in the world `w1`; `sleeps n` is what the `sleep` of pass `n`
returned. If `sleeps n` is a non-zero `r`, pass `n + 1` is exactly `sleep(r)`:
the trace grows by that one event, so the callback is not called, and the
locals become `(sleeps (n + 1), r)`. If `sleeps n` is `0`, pass `n + 1`
begins with the call of the callback `h` of the state. The first pass, which
has no previous `sleep`, begins with the call of the callback as well. So
the callback is called in a pass exactly when the previous `sleep` returned
`0` or the pass is the first one. The same holds of a single pass started
with any value of `ret`. -/
theorem produce_loop_callback_iff (K : Defs) (cfg : Config) (H : Nat → World → HandlerRun)
    (o : Oracle) (sleeps : Nat → Nat) (w : World) :
    (∀ (n : Nat) (l : Nat × Nat) (w1 : World),
      p_redis_master_produce_thread K cfg H o sleeps (n + 1) w = .ret l w1 →
        l.1 = sleeps n ∧
        (sleeps n ≠ 0 →
          p_redis_master_produce_thread K cfg H o sleeps (n + 2) w =
            .ret (sleeps (n + 1), sleeps n)
              { w1 with trace := w1.trace ++ [Event.sleep (sleeps n)] }) ∧
        (sleeps n = 0 → ∀ h, w1.redis_host.th_hdlr = some h →
          ∃ rest,
            (p_redis_master_produce_thread K cfg H o sleeps (n + 2) w).world.trace =
              w1.trace ++ Event.th_hdlr h :: rest)) ∧
    (∀ (v : Int) (w0 : World) (h : Nat), p_redis_connect K cfg o true w = .ret v w0 →
      w0.redis_host.th_hdlr = some h →
        ∃ rest,
          (p_redis_master_produce_thread K cfg H o sleeps 1 w).world.trace =
            w0.trace ++ Event.th_hdlr h :: rest) ∧
    (∀ (slept r period : Nat) (w2 : World), r ≠ 0 →
      produce_iteration K H slept r period w2 =
        .ret (slept, r) { w2 with trace := w2.trace ++ [Event.sleep r] }) ∧
    (∀ (slept period : Nat) (w2 : World) (h : Nat), w2.redis_host.th_hdlr = some h →
      ∃ rest,
        (produce_iteration K H slept 0 period w2).world.trace =
          w2.trace ++ Event.th_hdlr h :: rest) := by
  refine ⟨?_, ?_, ?_, ?_⟩
  · intro n l w1 hrun
    obtain ⟨v, w0, hc, hloop⟩ := p_redis_master_produce_thread_ret K cfg H o sleeps (n + 1) w
      l w1 hrun
    have hl : l.1 = sleeps n := produce_loop_ret K H sleeps n (0, 0) w0 l w1 hloop
    have hnext : p_redis_master_produce_thread K cfg H o sleeps (n + 2) w =
        produce_iteration K H (sleeps (n + 1)) (sleeps n) l.2 w1 := by
      simp only [p_redis_master_produce_thread, hc, Outcome.bind]
      rw [produce_loop, hloop]
      simp only [Outcome.bind, hl]
    refine ⟨hl, ?_, ?_⟩
    · intro hr
      rw [hnext]
      simp only [produce_iteration, hr, if_false]
    · intro hz h hh
      rw [hnext, hz]
      exact produce_iteration_calls K H _ _ w1 h hh
  · intro v w0 h hc hh
    have hfirst : p_redis_master_produce_thread K cfg H o sleeps 1 w =
        produce_iteration K H (sleeps 0) 0 0 w0 := by
      simp only [p_redis_master_produce_thread, hc, Outcome.bind, produce_loop]
    rw [hfirst]
    exact produce_iteration_calls K H _ _ w0 h hh
  · intro slept r period w2 hr
    simp only [produce_iteration, hr, if_false]
  · intro slept period w2 h hh
    exact produce_iteration_calls K H slept period w2 h hh

/-- Passes `0` to `3` of a run in which the `sleep` of pass `1` is cut short
with `3` seconds left: after the passes `0` and `1` the trace ends with the
callback and `sleep(20)`; pass `2` is `sleep(3)` alone, and pass `3` begins
with the callback again. -/
theorem produce_loop_callback_iff_witness :
    (p_redis_master_produce_thread sample_defs sample_config sample_handler
        (sample_oracle 1004 (some ⟨0, ""⟩)) sample_sleeps 2 sample_world =
      .ret (3, 20) sample_world_two_passes ∧
      sample_sleeps 1 ≠ 0) ∧
    p_redis_master_produce_thread sample_defs sample_config sample_handler
        (sample_oracle 1004 (some ⟨0, ""⟩)) sample_sleeps 3 sample_world =
      .ret (sample_sleeps 2, sample_sleeps 1)
        { sample_world_two_passes with
          trace := sample_world_two_passes.trace ++ [Event.sleep (sample_sleeps 1)] } ∧
    p_redis_master_produce_thread sample_defs sample_config sample_handler
        (sample_oracle 1004 (some ⟨0, ""⟩)) sample_sleeps 4 sample_world =
      .ret (0, 20)
        { sample_world_two_passes with
          trace :=
            sample_world_two_passes.trace ++
              [Event.sleep 3, Event.th_hdlr 0, Event.sleep 20] } :=
  ⟨⟨by decide, by decide⟩,
    ((produce_loop_callback_iff sample_defs sample_config sample_handler
      (sample_oracle 1004 (some ⟨0, ""⟩)) sample_sleeps sample_world).1 1
      (3, 20) sample_world_two_passes (by decide)).2.1 (by decide),
    by decide⟩

/-! ## The loop of the common core handler (C10) -/

/-- C10. In one call of `p_redis_thread_produce_common_core_handler`, for
every configuration, state and content of the local buffers, the loop
`while(++count >= 20)` ends after one evaluation of its guard without
entering its body: it leaves `count = 1`, the buffer `name_and_type` and the
world, the trace included, as they were, so it issues no command for the key
of `daemon_type` and none for the key of `process<SEP>name<SEP>type`. The
call is the statements after the loop, run in the world of entry. One unit
of fuel is enough. -/
theorem core_handler_loop_body_never_runs (K : Defs) (cfg : Config) (os : Nat → Oracle)
    (garbage_daemon_type garbage_name_and_type : String) (fuel : Nat) (w : World) :
    core_handler_while K cfg os (core_handler_daemon_type K cfg garbage_daemon_type)
        (fuel + 1)
        { count := 0, name_and_type := garbage_name_and_type, calls := 0, guards := 0,
          bodies := 0 } w =
      some (.ret
        { count := 1, name_and_type := garbage_name_and_type, calls := 0, guards := 1,
          bodies := 0 } w) ∧
    p_redis_thread_produce_common_core_handler K cfg os garbage_daemon_type
        garbage_name_and_type (fuel + 1) w =
      some (core_handler_rest K cfg os garbage_name_and_type 0 w) := by
  have hloop : core_handler_while K cfg os (core_handler_daemon_type K cfg garbage_daemon_type)
      (fuel + 1)
      { count := 0, name_and_type := garbage_name_and_type, calls := 0, guards := 0,
        bodies := 0 } w =
    some (.ret
      { count := 1, name_and_type := garbage_name_and_type, calls := 0, guards := 1,
        bodies := 0 } w) := by
    simp [core_handler_while]
  refine ⟨hloop, ?_⟩
  simp only [p_redis_thread_produce_common_core_handler, hloop]

end RedisCommon
